import Mathlib

/-!
Verification of the payment-processing workflow in `src/main.py`.

The program is a linear pipeline: validate customer data, validate payment
data, charge an external gateway, notify the customer, append a two-line
record to a log file, and return the gateway's charge result.

Embedding conventions:
- Python dicts of a known shape become structures with `Option` fields
  (a `none` field is a missing key; `dict[k]` on a missing key is a
  `KeyError`; `dict.get(k)` is the `Option` value, and Python truthiness
  of a string is "present and non-empty").
- Raised exceptions become `Except PyErr`.
- The external stripe API is an oracle `Gateway : ChargeRequest → Except
  String Charge` supplied to the service (constructor injection in the
  source); observable side effects (outbound charge requests, notifier
  invocations and composed messages, logger invocations and appended log
  lines) are recorded in an event trace.  Console prints are diagnostics,
  not contract, and are not traced.
-/

/-- The `contact_info` sub-dict of a customer dict: optional `email` and
`phone` keys. -/
structure ContactInfo where
  email : Option String
  phone : Option String
deriving DecidableEq, Repr

/-- A customer dict: optional `name` and `contact_info` keys. -/
structure CustomerData where
  name : Option String
  contact_info : Option ContactInfo
deriving DecidableEq, Repr

/-- A payment dict: optional `amount` and `source` keys (the `cvv` key in
the example data is never read by the program and is omitted). -/
structure PaymentData where
  amount : Option Int
  source : Option String
deriving DecidableEq, Repr

/-- The charge object returned by the gateway.  The program only reads its
`status` field; `payload` stands for the rest of the opaque gateway
response, so that "returned unchanged" is meaningful. -/
structure Charge where
  status : String
  payload : String
deriving DecidableEq, Repr

/-- The keyword arguments of the outbound `stripe.Charge.create` call. -/
structure ChargeRequest where
  amount : Int
  currency : String
  source : String
  description : String
deriving DecidableEq, Repr

/-- Python exceptions the program can raise: `ValueError msg` from the
validators, `KeyError k` from subscripting a dict with a missing key `k`,
and `StripeError msg` surfaced from the gateway. -/
inductive PyErr where
  | valueError (msg : String)
  | keyError (key : String)
  | stripeError (msg : String)
deriving DecidableEq, Repr

/-- Observable side effects of one run. -/
inductive Event where
  | gatewayCall (req : ChargeRequest)
  | notifyCall
  | notificationSent (channel address : String)
  | logCall
  | logWrite (line : String)
deriving DecidableEq, Repr

/-- Python truthiness of `d.get(k)` for a string-valued key: truthy iff
present and non-empty. -/
def truthyStr : Option String → Bool
  | none => false
  | some s => s != ""

/-- A `contact_info` dict is non-empty iff it has at least one key. -/
def ContactInfo.nonempty (ci : ContactInfo) : Bool :=
  ci.email.isSome || ci.phone.isSome

/-- Python truthiness of `d.get("contact_info")`: truthy iff present and a
non-empty dict. -/
def truthyContact : Option ContactInfo → Bool
  | none => false
  | some ci => ci.nonempty

/-- The `email` sub-field of a customer's contact info, when reachable. -/
def CustomerData.emailField (c : CustomerData) : Option String :=
  match c.contact_info with
  | none => none
  | some ci => ci.email

/-- The `phone` sub-field of a customer's contact info, when reachable. -/
def CustomerData.phoneField (c : CustomerData) : Option String :=
  match c.contact_info with
  | none => none
  | some ci => ci.phone

/-- `CustomerValidator.validate`: raises `ValueError` when `name` is
missing/empty, then when `contact_info` is missing/empty; otherwise
returns `None`. -/
def CustomerValidator.validate (customer_data : CustomerData) : Except PyErr Unit :=
  if !truthyStr customer_data.name then
    .error (.valueError "Invalid customer data: missing name")
  else if !truthyContact customer_data.contact_info then
    .error (.valueError "Invalid customer data: missing contact info")
  else
    .ok ()

/-- `PaymentValidator.validate`: raises `ValueError` when `source` is
missing/empty; otherwise returns `None`. -/
def PaymentValidator.validate (payment_data : PaymentData) : Except PyErr Unit :=
  if !truthyStr payment_data.source then
    .error (.valueError "Invalid payment data")
  else
    .ok ()

/-- The external stripe charge-creation API, as an oracle from the request
to either a charge object or a `StripeError` message. -/
def Gateway : Type := ChargeRequest → Except String Charge

/-- `StripePaymentProcessor.process_transaction`: builds the keyword
arguments of `stripe.Charge.create` (subscripting `payment_data["amount"]`,
`payment_data["source"]` and `customer_data["name"]`, in Python's
evaluation order, so a missing key raises `KeyError` before any call goes
out), then performs the call; a `StripeError` is re-raised, any other
result is returned unchanged. -/
def StripePaymentProcessor.process_transaction (gateway : Gateway)
    (customer_data : CustomerData) (payment_data : PaymentData) :
    Except PyErr Charge × List Event :=
  match payment_data.amount with
  | none => (.error (.keyError "amount"), [])
  | some amt =>
    match payment_data.source with
    | none => (.error (.keyError "source"), [])
    | some src =>
      match customer_data.name with
      | none => (.error (.keyError "name"), [])
      | some nm =>
        let req : ChargeRequest := ⟨amt, "usd", src, "Charge for " ++ nm⟩
        match gateway req with
        | .ok charge => (.ok charge, [.gatewayCall req])
        | .error msg => (.error (.stripeError msg), [.gatewayCall req])

/-- `EmailNotifier.send_confirmation`: subscripts
`customer_data["contact_info"]["email"]` (raising `KeyError` on a missing
key) and composes/prints a confirmation addressed to that email. -/
def EmailNotifier.send_confirmation (customer_data : CustomerData) :
    Except PyErr Unit × List Event :=
  match customer_data.contact_info with
  | none => (.error (.keyError "contact_info"), [])
  | some ci =>
    match ci.email with
    | none => (.error (.keyError "email"), [])
    | some addr => (.ok (), [.notificationSent "email" addr])

/-- `SMSNotifier.send_confirmation`: subscripts
`customer_data["contact_info"]["phone"]` (raising `KeyError` on a missing
key) and composes/prints a confirmation addressed to that phone number. -/
def SMSNotifier.send_confirmation (customer_data : CustomerData) :
    Except PyErr Unit × List Event :=
  match customer_data.contact_info with
  | none => (.error (.keyError "contact_info"), [])
  | some ci =>
    match ci.phone with
    | none => (.error (.keyError "phone"), [])
    | some phone => (.ok (), [.notificationSent "sms" phone])

/-- The two notifier implementations present in the source, selected at
`PaymentService` construction time. -/
inductive Notifier where
  | email
  | sms
deriving DecidableEq, Repr

/-- Dispatch of `send_confirmation` over the injected notifier. -/
def Notifier.send_confirmation : Notifier → CustomerData →
    Except PyErr Unit × List Event
  | .email, c => EmailNotifier.send_confirmation c
  | .sms, c => SMSNotifier.send_confirmation c

/-- `TransactionLogger.log`: appends two lines to `transactions.log`,
first `"<name> paid <amount>"`, then `"Payment status: <status>"`.  Both
f-strings subscript dicts, so a missing `name` or `amount` key raises
`KeyError` before the corresponding write. -/
def TransactionLogger.log (customer_data : CustomerData)
    (payment_data : PaymentData) (charge : Charge) :
    Except PyErr Unit × List Event :=
  match customer_data.name with
  | none => (.error (.keyError "name"), [])
  | some nm =>
    match payment_data.amount with
    | none => (.error (.keyError "amount"), [])
    | some amt =>
      (.ok (),
        [.logWrite (nm ++ " paid " ++ toString amt),
         .logWrite ("Payment status: " ++ charge.status)])

/-- The `PaymentService` dataclass: the injected collaborators that vary.
The validators and the logger are the fixed classes above; the processor
is the stripe adapter, whose external API is the `gateway` oracle. -/
structure PaymentService where
  gateway : Gateway
  notifier : Notifier

/-- `PaymentService.process_transaction`: validate customer, validate
payment, charge via the processor, notify, log, return the charge.  Any
raised exception aborts the remaining steps and propagates.  `notifyCall`
and `logCall` events mark the points where the service invokes the
notifier and the logger. -/
def PaymentService.process_transaction (svc : PaymentService)
    (customer_data : CustomerData) (payment_data : PaymentData) :
    Except PyErr Charge × List Event :=
  match CustomerValidator.validate customer_data with
  | .error e => (.error e, [])
  | .ok _ =>
    match PaymentValidator.validate payment_data with
    | .error e => (.error e, [])
    | .ok _ =>
      match StripePaymentProcessor.process_transaction svc.gateway
          customer_data payment_data with
      | (.error e, ev1) => (.error e, ev1)
      | (.ok charge, ev1) =>
        match svc.notifier.send_confirmation customer_data with
        | (.error e, ev2) => (.error e, ev1 ++ .notifyCall :: ev2)
        | (.ok _, ev2) =>
          match TransactionLogger.log customer_data payment_data charge with
          | (.error e, ev3) =>
            (.error e, ev1 ++ .notifyCall :: ev2 ++ .logCall :: ev3)
          | (.ok _, ev3) =>
            (.ok charge, ev1 ++ .notifyCall :: ev2 ++ .logCall :: ev3)

/-- Two sequential calls of `process_transaction` on the same service with
identical inputs; the service holds no mutable state, so the runs are
independent and their traces concatenate. -/
def PaymentService.process_twice (svc : PaymentService)
    (customer_data : CustomerData) (payment_data : PaymentData) :
    (Except PyErr Charge × Except PyErr Charge) × List Event :=
  let r1 := svc.process_transaction customer_data payment_data
  let r2 := svc.process_transaction customer_data payment_data
  ((r1.1, r2.1), r1.2 ++ r2.2)

/-- Is this event an outbound gateway charge request? -/
def Event.isGatewayCall : Event → Bool
  | .gatewayCall _ => true
  | _ => false

/-- Is this event an invocation of the notifier by the service? -/
def Event.isNotifyCall : Event → Bool
  | .notifyCall => true
  | _ => false

/-- Is this event an invocation of the logger by the service? -/
def Event.isLogCall : Event → Bool
  | .logCall => true
  | _ => false

/-- Is this event a line appended to the log file? -/
def Event.isLogWrite : Event → Bool
  | .logWrite _ => true
  | _ => false

/-- Number of outbound gateway charge requests in a trace. -/
def countGatewayCalls (evs : List Event) : Nat :=
  (evs.filter Event.isGatewayCall).length

/-- Number of notifier invocations in a trace. -/
def countNotifyCalls (evs : List Event) : Nat :=
  (evs.filter Event.isNotifyCall).length

/-- Number of logger invocations in a trace. -/
def countLogCalls (evs : List Event) : Nat :=
  (evs.filter Event.isLogCall).length

/-- Number of lines appended to the log file in a trace. -/
def countLogWrites (evs : List Event) : Nat :=
  (evs.filter Event.isLogWrite).length

/-- A gateway that accepts every request, for concrete runs. -/
def okGateway : Gateway := fun _ => .ok ⟨"succeeded", "ch_1"⟩

/-- A gateway that rejects every request, for concrete runs. -/
def failGateway : Gateway := fun _ => .error "Your card was declined."

/-! Helper lemmas about truthiness and the individual stages. -/

lemma truthyStr_false_iff (o : Option String) :
    truthyStr o = false ↔ (o = none ∨ o = some "") := by
  cases o with
  | none => simp [truthyStr]
  | some s => simp [truthyStr]

lemma truthyStr_some (s : String) (h : s ≠ "") : truthyStr (some s) = true := by
  simp [truthyStr, h]

lemma truthyContact_false_iff (o : Option ContactInfo) :
    truthyContact o = false ↔ (o = none ∨ o = some ⟨none, none⟩) := by
  cases o with
  | none => simp [truthyContact]
  | some ci =>
    obtain ⟨e, p⟩ := ci
    cases e <;> cases p <;> simp [truthyContact, ContactInfo.nonempty]

lemma customer_validate_ok (c : CustomerData) (nm : String)
    (hn : c.name = some nm) (hn' : nm ≠ "")
    (hc : truthyContact c.contact_info = true) :
    CustomerValidator.validate c = .ok () := by
  unfold CustomerValidator.validate
  rw [hn, truthyStr_some nm hn', hc]
  rfl

lemma payment_validate_ok (p : PaymentData) (s : String)
    (hs : p.source = some s) (hs' : s ≠ "") :
    PaymentValidator.validate p = .ok () := by
  unfold PaymentValidator.validate
  rw [hs, truthyStr_some s hs']
  rfl

lemma stripe_eq (gw : Gateway) (c : CustomerData) (p : PaymentData)
    (nm s : String) (a : Int)
    (hn : c.name = some nm) (ha : p.amount = some a) (hs : p.source = some s) :
    StripePaymentProcessor.process_transaction gw c p =
      (match gw ⟨a, "usd", s, "Charge for " ++ nm⟩ with
       | .ok charge => (.ok charge, [.gatewayCall ⟨a, "usd", s, "Charge for " ++ nm⟩])
       | .error msg =>
         (.error (.stripeError msg), [.gatewayCall ⟨a, "usd", s, "Charge for " ++ nm⟩])) := by
  unfold StripePaymentProcessor.process_transaction
  rw [ha, hs, hn]

lemma log_eq (c : CustomerData) (p : PaymentData) (charge : Charge)
    (nm : String) (a : Int) (hn : c.name = some nm) (ha : p.amount = some a) :
    TransactionLogger.log c p charge =
      (.ok (), [.logWrite (nm ++ " paid " ++ toString a),
                .logWrite ("Payment status: " ++ charge.status)]) := by
  unfold TransactionLogger.log
  rw [hn, ha]

lemma notifier_trace_shape (n : Notifier) (c : CustomerData) :
    (n.send_confirmation c).2 = [] ∨
    ∃ chan addr, (n.send_confirmation c).2 = [.notificationSent chan addr] := by
  obtain ⟨nm, ci⟩ := c
  cases n <;> cases ci with
  | none => left; rfl
  | some cinfo =>
    obtain ⟨e, ph⟩ := cinfo
    first
    | (cases e with
       | none => left; rfl
       | some addr => right; exact ⟨"email", addr, rfl⟩)
    | (cases ph with
       | none => left; rfl
       | some addr => right; exact ⟨"sms", addr, rfl⟩)

lemma process_valid_gwerr (gw : Gateway) (n : Notifier) (c : CustomerData)
    (p : PaymentData) (nm s msg : String) (a : Int)
    (hn : c.name = some nm) (hn' : nm ≠ "")
    (hc : truthyContact c.contact_info = true)
    (ha : p.amount = some a) (hs : p.source = some s) (hs' : s ≠ "")
    (hgw : gw ⟨a, "usd", s, "Charge for " ++ nm⟩ = .error msg) :
    PaymentService.process_transaction ⟨gw, n⟩ c p =
      (.error (.stripeError msg), [.gatewayCall ⟨a, "usd", s, "Charge for " ++ nm⟩]) := by
  unfold PaymentService.process_transaction
  rw [customer_validate_ok c nm hn hn' hc, payment_validate_ok p s hs hs',
      stripe_eq gw c p nm s a hn ha hs, hgw]

lemma process_valid_gwok (gw : Gateway) (n : Notifier) (c : CustomerData)
    (p : PaymentData) (nm s : String) (a : Int) (charge : Charge)
    (hn : c.name = some nm) (hn' : nm ≠ "")
    (hc : truthyContact c.contact_info = true)
    (ha : p.amount = some a) (hs : p.source = some s) (hs' : s ≠ "")
    (hgw : gw ⟨a, "usd", s, "Charge for " ++ nm⟩ = .ok charge) :
    PaymentService.process_transaction ⟨gw, n⟩ c p =
      (match n.send_confirmation c with
       | (.error e, ev2) =>
         (.error e, .gatewayCall ⟨a, "usd", s, "Charge for " ++ nm⟩ :: .notifyCall :: ev2)
       | (.ok _, ev2) =>
         (.ok charge,
          .gatewayCall ⟨a, "usd", s, "Charge for " ++ nm⟩ :: .notifyCall :: ev2 ++
            .logCall :: [.logWrite (nm ++ " paid " ++ toString a),
                         .logWrite ("Payment status: " ++ charge.status)])) := by
  have hcv := customer_validate_ok c nm hn hn' hc
  have hpv := payment_validate_ok p s hs hs'
  have hst := stripe_eq gw c p nm s a hn ha hs
  have hlog := log_eq c p charge nm a hn ha
  cases hsend : n.send_confirmation c with
  | mk r ev2 =>
    cases r with
    | error e =>
      simp [PaymentService.process_transaction, hcv, hpv, hst, hgw, hsend]
    | ok u =>
      cases u
      simp [PaymentService.process_transaction, hcv, hpv, hst, hgw, hsend, hlog]

lemma single_run_gateway_events (gw : Gateway) (n : Notifier) (c : CustomerData)
    (p : PaymentData) (nm s : String) (a : Int)
    (hn : c.name = some nm) (hn' : nm ≠ "")
    (hc : truthyContact c.contact_info = true)
    (ha : p.amount = some a) (hs : p.source = some s) (hs' : s ≠ "") :
    ((PaymentService.process_transaction ⟨gw, n⟩ c p).2).filter Event.isGatewayCall =
      [.gatewayCall ⟨a, "usd", s, "Charge for " ++ nm⟩] := by
  cases hgw : gw ⟨a, "usd", s, "Charge for " ++ nm⟩ with
  | error msg =>
    rw [process_valid_gwerr gw n c p nm s msg a hn hn' hc ha hs hs' hgw]
    rfl
  | ok charge =>
    rw [process_valid_gwok gw n c p nm s a charge hn hn' hc ha hs hs' hgw]
    rcases notifier_trace_shape n c with hev | ⟨chan, addr, hev⟩ <;>
      cases hsend : n.send_confirmation c with
      | mk r ev2 =>
        rw [hsend] at hev
        simp only at hev
        subst hev
        cases r <;> simp [List.filter, Event.isGatewayCall]

lemma notifier_ok_trace (n : Notifier) (c : CustomerData)
    (h : (n.send_confirmation c).1 = .ok ()) :
    ∃ chan addr, n.send_confirmation c = (.ok (), [.notificationSent chan addr]) := by
  obtain ⟨nm, ci⟩ := c
  cases n with
  | email =>
    cases ci with
    | none => simp [Notifier.send_confirmation, EmailNotifier.send_confirmation] at h
    | some cinfo =>
      cases he : cinfo.email with
      | none =>
        simp [Notifier.send_confirmation, EmailNotifier.send_confirmation, he] at h
      | some addr =>
        exact ⟨"email", addr,
          by simp [Notifier.send_confirmation, EmailNotifier.send_confirmation, he]⟩
  | sms =>
    cases ci with
    | none => simp [Notifier.send_confirmation, SMSNotifier.send_confirmation] at h
    | some cinfo =>
      cases hp : cinfo.phone with
      | none =>
        simp [Notifier.send_confirmation, SMSNotifier.send_confirmation, hp] at h
      | some addr =>
        exact ⟨"sms", addr,
          by simp [Notifier.send_confirmation, SMSNotifier.send_confirmation, hp]⟩

/-! Claim theorems. -/

/-- C1: whenever either validator fails on its input, the whole run of
`PaymentService.process_transaction` produces an empty trace — zero
gateway calls, zero notifier invocations, zero log writes — and the
validation failure propagates; the gateway is never charged before both
validators have returned normally. -/
theorem validator_failure_blocks (svc : PaymentService) (c : CustomerData)
    (p : PaymentData)
    (h : (∃ e, CustomerValidator.validate c = .error e) ∨
         (∃ e, PaymentValidator.validate p = .error e)) :
    ∃ e, svc.process_transaction c p = (.error e, []) := by
  obtain ⟨gw, n⟩ := svc
  cases hcv : CustomerValidator.validate c with
  | error e => exact ⟨e, by simp [PaymentService.process_transaction, hcv]⟩
  | ok u =>
    cases u
    cases hpv : PaymentValidator.validate p with
    | error e => exact ⟨e, by simp [PaymentService.process_transaction, hcv, hpv]⟩
    | ok u' =>
      cases u'
      exfalso
      rcases h with ⟨e, he⟩ | ⟨e, he⟩
      · rw [hcv] at he; exact Except.noConfusion he
      · rw [hpv] at he; exact Except.noConfusion he

/-- Witness for C1: the empty-name customer of scenario C aborts with an
empty trace. -/
theorem validator_failure_blocks_witness :
    ∃ e, PaymentService.process_transaction ⟨okGateway, Notifier.email⟩
      ⟨some "", some ⟨some "x@y.com", none⟩⟩ ⟨some 500, some "tok_mastercard"⟩ =
      (.error e, []) :=
  validator_failure_blocks _ _ _
    (Or.inl ⟨.valueError "Invalid customer data: missing name", rfl⟩)

/-- C5: `CustomerValidator.validate` can only raise one of the two
`InvalidCustomerData` errors or return normally, and it returns normally
exactly when the name is present and non-empty and the contact info is
present and non-empty. -/
theorem customerValidator_validate_spec (c : CustomerData) :
    (CustomerValidator.validate c =
        .error (.valueError "Invalid customer data: missing name") ∨
     CustomerValidator.validate c =
        .error (.valueError "Invalid customer data: missing contact info") ∨
     CustomerValidator.validate c = .ok ()) ∧
    (CustomerValidator.validate c = .ok () ↔
      ¬(c.name = none ∨ c.name = some "" ∨
        c.contact_info = none ∨ c.contact_info = some ⟨none, none⟩)) := by
  obtain ⟨nOpt, ciOpt⟩ := c
  cases nOpt with
  | none => simp [CustomerValidator.validate, truthyStr]
  | some s =>
    by_cases hs : s = ""
    · subst hs
      simp [CustomerValidator.validate, truthyStr]
    · cases ciOpt with
      | none =>
        simp [CustomerValidator.validate, truthyStr, truthyContact, hs]
      | some ci =>
        obtain ⟨e, ph⟩ := ci
        cases e <;> cases ph <;>
          simp [CustomerValidator.validate, truthyStr, truthyContact,
                ContactInfo.nonempty, hs]

/-- Witness for C5: a customer with a name and an email contact passes
validation. -/
theorem customerValidator_validate_spec_witness :
    CustomerValidator.validate
      ⟨some "John Doe", some ⟨some "e@mail.com", none⟩⟩ = .ok () :=
  (customerValidator_validate_spec _).2.mpr (by decide)

/-- C6: `PaymentValidator.validate` either raises `InvalidPaymentData` or
returns normally; it returns normally exactly when `source` is present and
non-empty; and the `amount` field is never inspected. -/
theorem paymentValidator_validate_spec (p : PaymentData) :
    (PaymentValidator.validate p = .error (.valueError "Invalid payment data") ∨
     PaymentValidator.validate p = .ok ()) ∧
    (PaymentValidator.validate p = .ok () ↔
      ¬(p.source = none ∨ p.source = some "")) ∧
    (∀ a : Option Int, PaymentValidator.validate ⟨a, p.source⟩ =
      PaymentValidator.validate p) := by
  obtain ⟨a0, s0⟩ := p
  refine ⟨?_, ?_, fun _ => rfl⟩ <;>
    cases s0 with
    | none => simp [PaymentValidator.validate, truthyStr]
    | some s =>
      by_cases hs : s = "" <;>
        simp [PaymentValidator.validate, truthyStr, hs]

/-- Witness for C6: a payment with a non-empty source passes validation,
and so does the same payment with its amount removed. -/
theorem paymentValidator_validate_spec_witness :
    PaymentValidator.validate ⟨none, some "tok_mastercard"⟩ =
      PaymentValidator.validate ⟨some 500, some "tok_mastercard"⟩ ∧
    PaymentValidator.validate ⟨some 500, some "tok_mastercard"⟩ = .ok () :=
  ⟨(paymentValidator_validate_spec ⟨some 500, some "tok_mastercard"⟩).2.2 none,
   (paymentValidator_validate_spec ⟨some 500, some "tok_mastercard"⟩).2.1.mpr (by decide)⟩

/-- C8: each notifier fails with a `MissingContactField` error (a
`KeyError`, with no message composed) exactly when the sub-field it needs
is unreachable — `email` for `EmailNotifier`, `phone` for `SMSNotifier` —
and returns normally, composing one message to that address, when the
sub-field is present. -/
theorem notifier_contact_spec (c : CustomerData) :
    (∀ addr, c.emailField = some addr →
      EmailNotifier.send_confirmation c = (.ok (), [.notificationSent "email" addr])) ∧
    (c.emailField = none →
      ∃ k, EmailNotifier.send_confirmation c = (.error (.keyError k), [])) ∧
    (∀ ph, c.phoneField = some ph →
      SMSNotifier.send_confirmation c = (.ok (), [.notificationSent "sms" ph])) ∧
    (c.phoneField = none →
      ∃ k, SMSNotifier.send_confirmation c = (.error (.keyError k), [])) := by
  obtain ⟨nOpt, ciOpt⟩ := c
  cases ciOpt with
  | none =>
    refine ⟨?_, fun _ => ⟨"contact_info", rfl⟩, ?_, fun _ => ⟨"contact_info", rfl⟩⟩ <;>
      intro x hx <;> exact Option.noConfusion hx
  | some ci =>
    obtain ⟨e, ph⟩ := ci
    cases e <;> cases ph <;>
      refine ⟨?_, ?_, ?_, ?_⟩ <;>
      simp [CustomerData.emailField, CustomerData.phoneField,
            EmailNotifier.send_confirmation, SMSNotifier.send_confirmation]

/-- Witness for C8: the email notifier composes one message for a customer
whose contact info has an email. -/
theorem notifier_contact_spec_witness :
    EmailNotifier.send_confirmation
      ⟨some "Platzi Python", some ⟨some "e@mail.com", none⟩⟩ =
      (.ok (), [.notificationSent "email" "e@mail.com"]) :=
  (notifier_contact_spec _).1 "e@mail.com" rfl

/-- C10: when the customer passes validation and the payment has a
non-empty source but no `amount` key, the run raises `KeyError "amount"`
while building the gateway request, with an empty trace: no outbound
charge, no notification, no log write. -/
theorem missing_amount_keyError (gw : Gateway) (n : Notifier)
    (c : CustomerData) (p : PaymentData) (s : String)
    (hcv : CustomerValidator.validate c = .ok ())
    (hs : p.source = some s) (hs' : s ≠ "")
    (ha : p.amount = none) :
    PaymentService.process_transaction ⟨gw, n⟩ c p =
      (.error (.keyError "amount"), []) := by
  have hpv := payment_validate_ok p s hs hs'
  simp [PaymentService.process_transaction, hcv, hpv,
        StripePaymentProcessor.process_transaction, ha]

/-- Witness for C10: a concrete valid customer and an amount-less payment
dict abort with `KeyError "amount"` and an empty trace. -/
theorem missing_amount_keyError_witness :
    PaymentService.process_transaction ⟨okGateway, Notifier.email⟩
      ⟨some "John Doe", some ⟨some "e@mail.com", none⟩⟩
      ⟨none, some "tok_mastercard"⟩ =
      (.error (.keyError "amount"), []) :=
  missing_amount_keyError okGateway Notifier.email _ _ "tok_mastercard"
    rfl rfl (by decide) rfl

/-- C2: when the inputs pass both validations and the gateway rejects the
request, the run makes exactly one gateway call, zero notifier invocations
and zero log writes, and the gateway's error detail propagates unchanged
as a `PaymentGatewayError` — there is no retry. -/
theorem gateway_failure_propagates (gw : Gateway) (n : Notifier)
    (c : CustomerData) (p : PaymentData) (nm s msg : String) (a : Int)
    (hn : c.name = some nm) (hn' : nm ≠ "")
    (hc : truthyContact c.contact_info = true)
    (ha : p.amount = some a) (hs : p.source = some s) (hs' : s ≠ "")
    (hgw : gw ⟨a, "usd", s, "Charge for " ++ nm⟩ = .error msg) :
    PaymentService.process_transaction ⟨gw, n⟩ c p =
      (.error (.stripeError msg),
       [.gatewayCall ⟨a, "usd", s, "Charge for " ++ nm⟩]) ∧
    countGatewayCalls (PaymentService.process_transaction ⟨gw, n⟩ c p).2 = 1 ∧
    countNotifyCalls (PaymentService.process_transaction ⟨gw, n⟩ c p).2 = 0 ∧
    countLogWrites (PaymentService.process_transaction ⟨gw, n⟩ c p).2 = 0 := by
  have h := process_valid_gwerr gw n c p nm s msg a hn hn' hc ha hs hs' hgw
  rw [h]
  exact ⟨rfl, rfl, rfl, rfl⟩

/-- Witness for C2: a declined card propagates as a gateway error after a
single gateway call. -/
theorem gateway_failure_propagates_witness :
    PaymentService.process_transaction ⟨failGateway, Notifier.email⟩
      ⟨some "John Doe", some ⟨some "e@mail.com", none⟩⟩
      ⟨some 500, some "tok_mastercard"⟩ =
      (.error (.stripeError "Your card was declined."),
       [.gatewayCall ⟨500, "usd", "tok_mastercard", "Charge for John Doe"⟩]) :=
  (gateway_failure_propagates failGateway Notifier.email
    ⟨some "John Doe", some ⟨some "e@mail.com", none⟩⟩
    ⟨some 500, some "tok_mastercard"⟩
    "John Doe" "tok_mastercard" "Your card was declined." 500
    rfl (by decide) rfl rfl rfl (by decide) rfl).1

/-- Counterexample to C3 as stated: with the email notifier and a
phone-only contact the gateway call succeeds, yet the logger is never
invoked, because `send_confirmation` raises `KeyError "email"` first. -/
theorem success_without_log_cex :
    okGateway ⟨500, "usd", "tok_mastercard", "Charge for John Doe"⟩ =
      .ok ⟨"succeeded", "ch_1"⟩ ∧
    PaymentService.process_transaction ⟨okGateway, Notifier.email⟩
      ⟨some "John Doe", some ⟨none, some "1234567890"⟩⟩
      ⟨some 500, some "tok_mastercard"⟩ =
      (.error (.keyError "email"),
       [.gatewayCall ⟨500, "usd", "tok_mastercard", "Charge for John Doe"⟩,
        .notifyCall]) ∧
    countLogCalls (PaymentService.process_transaction ⟨okGateway, Notifier.email⟩
      ⟨some "John Doe", some ⟨none, some "1234567890"⟩⟩
      ⟨some 500, some "tok_mastercard"⟩).2 = 0 :=
  ⟨rfl, rfl, rfl⟩

/-- C3 (amended): after a successful gateway call the service makes
exactly one notifier invocation; whenever that invocation returns
normally, it is followed by exactly one logger invocation, in that order:
the trace is the gateway call, the notifier invocation, the composed
message, the logger invocation and the two log lines. -/
theorem success_notify_then_log (gw : Gateway) (n : Notifier)
    (c : CustomerData) (p : PaymentData) (nm s : String) (a : Int)
    (charge : Charge)
    (hn : c.name = some nm) (hn' : nm ≠ "")
    (hc : truthyContact c.contact_info = true)
    (ha : p.amount = some a) (hs : p.source = some s) (hs' : s ≠ "")
    (hgw : gw ⟨a, "usd", s, "Charge for " ++ nm⟩ = .ok charge) :
    countNotifyCalls (PaymentService.process_transaction ⟨gw, n⟩ c p).2 = 1 ∧
    ((n.send_confirmation c).1 = .ok () →
      ∃ chan addr,
        (PaymentService.process_transaction ⟨gw, n⟩ c p).2 =
          [.gatewayCall ⟨a, "usd", s, "Charge for " ++ nm⟩, .notifyCall,
           .notificationSent chan addr, .logCall,
           .logWrite (nm ++ " paid " ++ toString a),
           .logWrite ("Payment status: " ++ charge.status)]) := by
  have h := process_valid_gwok gw n c p nm s a charge hn hn' hc ha hs hs' hgw
  cases hsend : n.send_confirmation c with
  | mk r ev2 =>
    rw [hsend] at h
    constructor
    · rcases notifier_trace_shape n c with hev | ⟨ch2, ad2, hev⟩ <;>
        rw [hsend] at hev <;> simp only at hev <;> subst hev <;>
        cases r <;> rw [h] <;> rfl
    · intro hnot
      cases r with
      | error e => exact absurd hnot (by simp)
      | ok u =>
        cases u
        obtain ⟨chan, addr, hsend2⟩ :=
          notifier_ok_trace n c (congrArg Prod.fst hsend)
        rw [hsend] at hsend2
        have hev2 : ev2 = [.notificationSent chan addr] :=
          congrArg Prod.snd hsend2
        subst hev2
        exact ⟨chan, addr, by rw [h]; rfl⟩

/-- Counterexample to C4 as stated: with the SMS notifier and an
email-only contact the gateway accepts the charge, yet
`process_transaction` does not return the charge result — it raises
`KeyError "phone"` from the notifier. -/
theorem gateway_success_return_cex :
    okGateway ⟨500, "usd", "tok_mastercard", "Charge for Platzi Python"⟩ =
      .ok ⟨"succeeded", "ch_1"⟩ ∧
    (PaymentService.process_transaction ⟨okGateway, Notifier.sms⟩
      ⟨some "Platzi Python", some ⟨some "e@mail.com", none⟩⟩
      ⟨some 500, some "tok_mastercard"⟩).1 = .error (.keyError "phone") :=
  ⟨rfl, rfl⟩

/-- C4 (amended): the single outbound gateway request carries exactly the
payment's amount, currency "usd", the payment's source, and the
description "Charge for " followed by the customer's name; and when the
gateway accepts and the subsequent notification step returns normally,
`process_transaction` returns the gateway's charge result unchanged. -/
theorem gateway_request_and_return (gw : Gateway) (n : Notifier)
    (c : CustomerData) (p : PaymentData) (nm s : String) (a : Int)
    (hn : c.name = some nm) (hn' : nm ≠ "")
    (hc : truthyContact c.contact_info = true)
    (ha : p.amount = some a) (hs : p.source = some s) (hs' : s ≠ "") :
    ((PaymentService.process_transaction ⟨gw, n⟩ c p).2).filter Event.isGatewayCall =
      [.gatewayCall ⟨a, "usd", s, "Charge for " ++ nm⟩] ∧
    (∀ charge, gw ⟨a, "usd", s, "Charge for " ++ nm⟩ = .ok charge →
      (n.send_confirmation c).1 = .ok () →
      (PaymentService.process_transaction ⟨gw, n⟩ c p).1 = .ok charge) := by
  refine ⟨single_run_gateway_events gw n c p nm s a hn hn' hc ha hs hs', ?_⟩
  intro charge hgw hnot
  have h := process_valid_gwok gw n c p nm s a charge hn hn' hc ha hs hs' hgw
  cases hsend : n.send_confirmation c with
  | mk r ev2 =>
    rw [hsend] at h
    cases r with
    | error e => rw [hsend] at hnot; exact absurd hnot (by simp)
    | ok u => rw [h]

/-- Witness for C4 (amended): scenario-A data with the email notifier and
a consenting gateway yields exactly one correctly-shaped request and the
gateway's charge as the return value. -/
theorem gateway_request_and_return_witness :
    ((PaymentService.process_transaction ⟨okGateway, Notifier.email⟩
        ⟨some "John Doe", some ⟨some "e@mail.com", none⟩⟩
        ⟨some 500, some "tok_mastercard"⟩).2).filter Event.isGatewayCall =
      [.gatewayCall ⟨500, "usd", "tok_mastercard", "Charge for John Doe"⟩] ∧
    (PaymentService.process_transaction ⟨okGateway, Notifier.email⟩
        ⟨some "John Doe", some ⟨some "e@mail.com", none⟩⟩
        ⟨some 500, some "tok_mastercard"⟩).1 = .ok ⟨"succeeded", "ch_1"⟩ := by
  have h := gateway_request_and_return okGateway Notifier.email
    ⟨some "John Doe", some ⟨some "e@mail.com", none⟩⟩
    ⟨some 500, some "tok_mastercard"⟩ "John Doe" "tok_mastercard" 500
    rfl (by decide) rfl rfl rfl (by decide)
  exact ⟨h.1, h.2 ⟨"succeeded", "ch_1"⟩ rfl rfl⟩

/-- C7: given a customer dict with a name, a payment dict with an amount
and a charge, `TransactionLogger.log` returns normally and appends exactly
two lines, "<name> paid <amount>" then "Payment status: <status>", and
nothing else. -/
theorem transactionLogger_log_spec (c : CustomerData) (p : PaymentData)
    (charge : Charge) (nm : String) (a : Int)
    (hn : c.name = some nm) (ha : p.amount = some a) :
    TransactionLogger.log c p charge =
      (.ok (), [.logWrite (nm ++ " paid " ++ toString a),
                .logWrite ("Payment status: " ++ charge.status)]) :=
  log_eq c p charge nm a hn ha

/-- Witness for C7: scenario A's log entry. -/
theorem transactionLogger_log_spec_witness :
    TransactionLogger.log ⟨some "John Doe", some ⟨none, some "1234567890"⟩⟩
      ⟨some 500, some "tok_mastercard"⟩ ⟨"succeeded", "ch_1"⟩ =
      (.ok (), [.logWrite "John Doe paid 500",
                .logWrite "Payment status: succeeded"]) := by
  have h := transactionLogger_log_spec
    ⟨some "John Doe", some ⟨none, some "1234567890"⟩⟩
    ⟨some 500, some "tok_mastercard"⟩ ⟨"succeeded", "ch_1"⟩ "John Doe" 500 rfl rfl
  exact h

/-- C9: `process_transaction` is not idempotent — two sequential calls on
the same service with identical valid inputs issue exactly two outbound
gateway charge requests, one per call, and the two requests are identical
(no idempotency key distinguishes or deduplicates them). -/
theorem process_twice_double_charge (gw : Gateway) (n : Notifier)
    (c : CustomerData) (p : PaymentData) (nm s : String) (a : Int)
    (hn : c.name = some nm) (hn' : nm ≠ "")
    (hc : truthyContact c.contact_info = true)
    (ha : p.amount = some a) (hs : p.source = some s) (hs' : s ≠ "") :
    countGatewayCalls (PaymentService.process_twice ⟨gw, n⟩ c p).2 = 2 ∧
    ((PaymentService.process_twice ⟨gw, n⟩ c p).2).filter Event.isGatewayCall =
      [.gatewayCall ⟨a, "usd", s, "Charge for " ++ nm⟩,
       .gatewayCall ⟨a, "usd", s, "Charge for " ++ nm⟩] := by
  have h := single_run_gateway_events gw n c p nm s a hn hn' hc ha hs hs'
  have h2 : (PaymentService.process_twice ⟨gw, n⟩ c p).2 =
      (PaymentService.process_transaction ⟨gw, n⟩ c p).2 ++
      (PaymentService.process_transaction ⟨gw, n⟩ c p).2 := rfl
  constructor
  · unfold countGatewayCalls
    rw [h2, List.filter_append, h]
    rfl
  · rw [h2, List.filter_append, h]
    rfl

/-- Witness for C9: two calls on scenario-B data issue two identical
charge requests. -/
theorem process_twice_double_charge_witness :
    countGatewayCalls (PaymentService.process_twice ⟨okGateway, Notifier.email⟩
      ⟨some "Platzi Python", some ⟨some "e@mail.com", none⟩⟩
      ⟨some 500, some "tok_mastercard"⟩).2 = 2 :=
  (process_twice_double_charge okGateway Notifier.email
    ⟨some "Platzi Python", some ⟨some "e@mail.com", none⟩⟩
    ⟨some 500, some "tok_mastercard"⟩
    "Platzi Python" "tok_mastercard" 500
    rfl (by decide) rfl rfl rfl (by decide)).1

/-- Witness for C3 (amended): scenario-A data with the SMS notifier
produces the full gateway-notify-log trace in order. -/
theorem success_notify_then_log_witness :
    countNotifyCalls (PaymentService.process_transaction ⟨okGateway, Notifier.sms⟩
      ⟨some "John Doe", some ⟨none, some "1234567890"⟩⟩
      ⟨some 500, some "tok_mastercard"⟩).2 = 1 ∧
    ∃ chan addr,
      (PaymentService.process_transaction ⟨okGateway, Notifier.sms⟩
        ⟨some "John Doe", some ⟨none, some "1234567890"⟩⟩
        ⟨some 500, some "tok_mastercard"⟩).2 =
        [.gatewayCall ⟨500, "usd", "tok_mastercard", "Charge for John Doe"⟩,
         .notifyCall, .notificationSent chan addr, .logCall,
         .logWrite "John Doe paid 500", .logWrite "Payment status: succeeded"] := by
  have h := success_notify_then_log okGateway Notifier.sms
    ⟨some "John Doe", some ⟨none, some "1234567890"⟩⟩
    ⟨some 500, some "tok_mastercard"⟩ "John Doe" "tok_mastercard" 500
    ⟨"succeeded", "ch_1"⟩ rfl (by decide) rfl rfl rfl (by decide) rfl
  exact ⟨h.1, h.2 rfl⟩
